import Mathlib

/-
Shallow embedding of the rmw_zenoh_cpp correlation layer
(src/rmw_zenoh_cpp/src/detail/): the attachment codec
(attachment_helpers.cpp), the client correlation store
(rmw_client_data.cpp and rmw_data_types.cpp) and the graph-event
liveliness handler (rmw_context_impl_s.cpp).

External zenoh primitives (ze_serializer, z_get, mutexes,
allocators) are modelled at the boundary: each serializer call
appends one token, each transport call is an input flag, and each
mutex-guarded method is one atomic step of a state machine.
-/

namespace RmwZenohCpp

/-- Return codes from rmw/ret_types.h used by this layer. -/
inductive RmwRet where
  | ok
  | error
  | invalidArgument
deriving DecidableEq, Repr

/- ----------------------------------------------------------------
   Attachment codec (attachment_helpers.cpp)
   ---------------------------------------------------------------- -/

/-- One primitive item of the zenoh ze_serializer stream.  The zenoh
serializer is an external collaborator; the repository code only calls
serialize/deserialize of strings, int64 values and byte slices, so the
wire stream is modelled as the list of those primitive items. -/
inductive ZToken where
  | str (s : String)
  | int64 (n : Int)
  | slice (b : List Nat)
deriving DecidableEq, Repr

/-- rmw_zenoh_cpp::AttachmentData (attachment_helpers.hpp): the three
correlation fields.  The cached gid_hash_ member is a derived value
computed by the external hash_gid helper and is not part of the codec
contract, so it is not modelled. -/
structure AttachmentData where
  sequence_number : Int
  source_timestamp : Int
  source_gid : List Nat
deriving DecidableEq, Repr

/-- The seven distinct std::runtime_error failures thrown by
AttachmentData::AttachmentData(const z_loaned_bytes_t *)
(attachment_helpers.cpp lines 52-99), one per check. -/
inductive AttachmentDecodeError where
  | sequenceNumberTagNotFound
  | sequenceNumberDeserializeFailed
  | sourceTimestampTagNotFound
  | sourceTimestampDeserializeFailed
  | sourceGidTagNotFound
  | sourceGidDeserializeFailed
  | sourceGidLengthMismatch
deriving DecidableEq, Repr

/-- ze_deserializer_deserialize_string: succeeds exactly when the next
stream item is a string. -/
def ze_deserializer_deserialize_string : List ZToken → Option (String × List ZToken)
  | ZToken.str s :: rest => some (s, rest)
  | _ => none

/-- ze_deserializer_deserialize_int64: succeeds exactly when the next
stream item is an int64. -/
def ze_deserializer_deserialize_int64 : List ZToken → Option (Int × List ZToken)
  | ZToken.int64 n :: rest => some (n, rest)
  | _ => none

/-- ze_deserializer_deserialize_slice: succeeds exactly when the next
stream item is a byte slice. -/
def ze_deserializer_deserialize_slice : List ZToken → Option (List Nat × List ZToken)
  | ZToken.slice b :: rest => some (b, rest)
  | _ => none

/-- One tag read of the decoder: the C++ code calls
ze_deserializer_deserialize_string without checking its return value and
then compares the key with the expected tag; when deserialization fails
the key is left empty so the comparison fails as well.  Hence the read
succeeds exactly when the next item is the expected tag string. -/
def readTag (tag : String) (ts : List ZToken) : Option (List ZToken) :=
  match ze_deserializer_deserialize_string ts with
  | some (k, rest) => if k = tag then some rest else none
  | none => none

/-- AttachmentData::AttachmentData(const z_loaned_bytes_t *)
(attachment_helpers.cpp lines 52-99): strict three-field decoder.  A
throw in the C++ constructor means no AttachmentData object is produced,
modelled by Except.error. -/
def AttachmentData.fromZBytes (ts : List ZToken) : Except AttachmentDecodeError AttachmentData :=
  match readTag "sequence_number" ts with
  | none => Except.error AttachmentDecodeError.sequenceNumberTagNotFound
  | some ts1 =>
    match ze_deserializer_deserialize_int64 ts1 with
    | none => Except.error AttachmentDecodeError.sequenceNumberDeserializeFailed
    | some (seq, ts2) =>
      match readTag "source_timestamp" ts2 with
      | none => Except.error AttachmentDecodeError.sourceTimestampTagNotFound
      | some ts3 =>
        match ze_deserializer_deserialize_int64 ts3 with
        | none => Except.error AttachmentDecodeError.sourceTimestampDeserializeFailed
        | some (stamp, ts4) =>
          match readTag "source_gid" ts4 with
          | none => Except.error AttachmentDecodeError.sourceGidTagNotFound
          | some ts5 =>
            match ze_deserializer_deserialize_slice ts5 with
            | none => Except.error AttachmentDecodeError.sourceGidDeserializeFailed
            | some (gid, _) =>
              if gid.length = 16 then
                Except.ok { sequence_number := seq, source_timestamp := stamp, source_gid := gid }
              else
                Except.error AttachmentDecodeError.sourceGidLengthMismatch

/-- AttachmentData::serialize_to_zbytes (attachment_helpers.cpp lines
126-137): writes the three tagged fields in fixed order. -/
def AttachmentData.serialize_to_zbytes (a : AttachmentData) : List ZToken :=
  [ZToken.str "sequence_number", ZToken.int64 a.sequence_number,
   ZToken.str "source_timestamp", ZToken.int64 a.source_timestamp,
   ZToken.str "source_gid", ZToken.slice a.source_gid]

/-- Stream starts with the given tag string. -/
def startsWithStr (tag : String) : List ZToken → Bool
  | ZToken.str s :: _ => s == tag
  | _ => false

/-- Stream starts with an int64 item. -/
def startsWithInt64 : List ZToken → Bool
  | ZToken.int64 _ :: _ => true
  | _ => false

/-- Stream starts with a byte-slice item. -/
def startsWithSlice : List ZToken → Bool
  | ZToken.slice _ :: _ => true
  | _ => false

/-- Smallest value of the C int64_t type. -/
def int64Min : Int := -(2 ^ 63)

/-- Largest value of the C int64_t type. -/
def int64Max : Int := 2 ^ 63 - 1

/- ----------------------------------------------------------------
   Correlation store: ClientData (rmw_client_data.cpp)
   ---------------------------------------------------------------- -/

/-- One buffered reply as observed by ClientData (zenoh_utils.cpp
ZenohReply plus the attachment and payload facts that
ClientData::take_response inspects): whether get_sample() holds a value,
whether the payload deserializes as the response type, the attachment
fields, and the local receive timestamp. -/
structure ZenohReply where
  sample_ok : Bool
  deserialize_ok : Bool
  sequence_number : Int
  source_timestamp : Int
  source_gid : List Nat
  received_timestamp : Int
deriving DecidableEq, Repr

/-- A reply that passes every check of ClientData::take_response. -/
abbrev ReplyOk (r : ZenohReply) : Prop :=
  r.sample_ok = true ∧ r.deserialize_ok = true ∧
  0 ≤ r.sequence_number ∧ 0 ≤ r.source_timestamp

/-- The part of the adapted rmw_qos_profile_t that drives the reply
queue: history policy and depth. -/
structure QosProfile where
  history_keep_all : Bool
  depth : Nat
deriving DecidableEq, Repr

/-- Mutable state of one ClientData correlation store
(rmw_client_data.cpp).  All methods run under the single recursive
mutex mutex_, so each method is one atomic step. -/
structure ClientState where
  is_shutdown : Bool
  num_in_flight : Int
  sequence_number : Int
  reply_queue : List ZenohReply
deriving DecidableEq, Repr

/-- ClientData::ClientData (rmw_client_data.cpp lines 205-226):
sequence_number_(1), is_shutdown_(false), num_in_flight_(0). -/
def initClientState : ClientState :=
  { is_shutdown := false, num_in_flight := 0, sequence_number := 1, reply_queue := [] }

/-- Result of add_new_reply: the new store state plus whether the
depth-reached data-loss log message was emitted. -/
structure AddReplyResult where
  state : ClientState
  logged_data_loss : Bool
deriving DecidableEq, Repr

/-- ClientData::add_new_reply (rmw_client_data.cpp lines 266-295):
when history is not keep-all and the queue has reached the depth, log
the data loss and pop the oldest entry, then append the new reply. -/
def add_new_reply (qos : QosProfile) (s : ClientState) (r : ZenohReply) : AddReplyResult :=
  if !qos.history_keep_all && s.reply_queue.length ≥ qos.depth then
    { state := { s with reply_queue := s.reply_queue.drop 1 ++ [r] },
      logged_data_loss := true }
  else
    { state := { s with reply_queue := s.reply_queue ++ [r] },
      logged_data_loss := false }

/-- Deliver a sequence of accepted replies through add_new_reply,
returning the final state and the number of data-loss log events. -/
def runAddReplies (qos : QosProfile) : ClientState → List ZenohReply → ClientState × Nat
  | s, [] => (s, 0)
  | s, r :: rest =>
    let res := add_new_reply qos s r
    let tail := runAddReplies qos res.state rest
    (tail.1, (if res.logged_data_loss then 1 else 0) + tail.2)

/-- Result of ClientData::take_response: the return code, the *taken
out-parameter, the reply whose payload and attachment were copied out
(none when nothing was taken), and the new store state. -/
structure TakeResult where
  ret : RmwRet
  taken : Bool
  response : Option ZenohReply
  state : ClientState
deriving DecidableEq, Repr

/-- ClientData::take_response (rmw_client_data.cpp lines 298-356).
The reply is popped before validation; each failed check returns
RMW_RET_ERROR with the reply already removed from the queue. -/
def take_response (s : ClientState) : TakeResult :=
  if s.is_shutdown || s.reply_queue.isEmpty then
    { ret := RmwRet.ok, taken := false, response := none, state := s }
  else
    match s.reply_queue with
    | [] =>
      -- unreachable: the queue is not empty in this branch
      { ret := RmwRet.ok, taken := false, response := none, state := s }
    | latest_reply :: rest =>
      let s1 : ClientState := { s with reply_queue := rest }
      if latest_reply.sample_ok = false then
        { ret := RmwRet.error, taken := false, response := none, state := s1 }
      else if latest_reply.deserialize_ok = false then
        { ret := RmwRet.error, taken := false, response := none, state := s1 }
      else if latest_reply.sequence_number < 0 then
        { ret := RmwRet.error, taken := false, response := none, state := s1 }
      else if latest_reply.source_timestamp < 0 then
        { ret := RmwRet.error, taken := false, response := none, state := s1 }
      else
        { ret := RmwRet.ok, taken := true, response := some latest_reply, state := s1 }

/-- Repeatedly call take_response while it takes a reply, collecting the
replies in the order returned.  The fuel is the queue length, which
bounds the number of successful takes. -/
def takeLoop : Nat → ClientState → List ZenohReply
  | 0, _ => []
  | fuel + 1, s =>
    let res := take_response s
    match res.response with
    | some r => r :: takeLoop fuel res.state
    | none => []

/-- All replies obtainable from the store by successive take_response
calls. -/
def takeAllReplies (s : ClientState) : List ZenohReply :=
  takeLoop s.reply_queue.length s

/-- Inputs of one ClientData::send_request call that are decided by
external collaborators: whether rmw_node_->context->impl is non-null,
whether the allocator call succeeds, whether serialize_ros_message
succeeds, and whether the z_get transport call succeeds. -/
structure SendInput where
  context_valid : Bool
  alloc_ok : Bool
  serialize_ok : Bool
  z_get_ok : Bool
deriving DecidableEq, Repr

/-- Result of ClientData::send_request: the return code, the value
written through the sequence_id out-parameter (none when the call
returned before the assignment), whether z_get was invoked, and the new
store state. -/
structure SendResult where
  ret : RmwRet
  sequence_id : Option Int
  issued_query : Bool
  state : ClientState
deriving DecidableEq, Repr

/-- ClientData::send_request (rmw_client_data.cpp lines 359-443).
Note two facts visible in the source: num_in_flight_ is not modified on
any path of this function, and the return value of z_get is discarded,
so the function returns RMW_RET_OK whether or not the transport call
succeeds (the z_get_ok input is therefore unused). -/
def send_request (s : ClientState) (inp : SendInput) : SendResult :=
  if s.is_shutdown then
    { ret := RmwRet.ok, sequence_id := none, issued_query := false, state := s }
  else if inp.context_valid = false then
    { ret := RmwRet.invalidArgument, sequence_id := none, issued_query := false, state := s }
  else if inp.alloc_ok = false then
    { ret := RmwRet.error, sequence_id := none, issued_query := false, state := s }
  else if inp.serialize_ok = false then
    { ret := RmwRet.error, sequence_id := none, issued_query := false, state := s }
  else
    -- *sequence_id = sequence_number_++;  then attachment built and z_get issued
    { ret := RmwRet.ok,
      sequence_id := some s.sequence_number,
      issued_query := true,
      state := { s with sequence_number := s.sequence_number + 1 } }

/-- A send_request call that reaches the sequence-number assignment
(store not shut down is checked separately; these are the three local
preconditions). -/
def sendSucceeds (inp : SendInput) : Bool :=
  inp.context_valid && inp.alloc_ok && inp.serialize_ok

/-- Number of calls in a batch that reach the assignment. -/
def successCount (inputs : List SendInput) : Nat :=
  inputs.countP sendSucceeds

/-- Run a batch of send_request calls, collecting the sequence ids that
were assigned (in call order) and the final state. -/
def runSendRequests : ClientState → List SendInput → List Int × ClientState
  | s, [] => ([], s)
  | s, inp :: rest =>
    let res := send_request s inp
    let tail := runSendRequests res.state rest
    match res.sequence_id with
    | some v => (v :: tail.1, tail.2)
    | none => tail

/-- ClientData::_shutdown (rmw_client_data.cpp lines 490-508): no-op when
already shut down; undeclares the liveliness token and, only when that
external call succeeds, sets is_shutdown_. -/
def shutdownInternal (undeclare_ok : Bool) (s : ClientState) : ClientState :=
  if s.is_shutdown then s
  else if undeclare_ok = false then s
  else { s with is_shutdown := true }

/-- ClientData::shutdown (rmw_client_data.cpp lines 511-516): runs
_shutdown under the mutex and returns RMW_RET_OK. -/
def ClientData_shutdown (undeclare_ok : Bool) (s : ClientState) : ClientState × RmwRet :=
  (shutdownInternal undeclare_ok s, RmwRet.ok)

/-- Lifecycle of one store: its state plus whether the owning NodeData
collection has been told to drop it
(NodeData::delete_client_data(rmw_client_)). -/
structure ClientLifecycle where
  client : ClientState
  removed : Bool
deriving DecidableEq, Repr

/-- ClientData::decrement_in_flight_and_conditionally_remove
(rmw_client_data.cpp lines 527-543): decrements the count and, when the
store is shut down and the count has reached zero, asks the owning
NodeData to delete this store. -/
def decrement_in_flight_and_conditionally_remove (l : ClientLifecycle) : ClientLifecycle :=
  let c : ClientState := { l.client with num_in_flight := l.client.num_in_flight - 1 }
  if c.is_shutdown && c.num_in_flight == 0 then
    { client := c, removed := true }
  else
    { client := c, removed := l.removed }

/-- The two lifecycle events of the teardown interleaving: an
application call to ClientData::shutdown() (the liveliness undeclare is
assumed to succeed) and a zenoh worker invoking client_data_drop, which
forwards to decrement_in_flight_and_conditionally_remove.  The mutex
serializes the two, so an interleaving is a sequence of these events. -/
inductive ClientEvent where
  | shutdownCall
  | dropCallback
deriving DecidableEq, Repr

/-- One serialized lifecycle event. -/
def clientStep (l : ClientLifecycle) : ClientEvent → ClientLifecycle
  | ClientEvent.shutdownCall => { l with client := (ClientData_shutdown true l.client).1 }
  | ClientEvent.dropCallback => decrement_in_flight_and_conditionally_remove l

/-- Run a sequence of lifecycle events. -/
def clientRun (l : ClientLifecycle) (es : List ClientEvent) : ClientLifecycle :=
  es.foldl clientStep l

/-- A live (not yet shut down, not removed) store with m callbacks in
flight. -/
def lifecycleWithInFlight (m : Nat) : ClientLifecycle :=
  { client := { initClientState with num_in_flight := (m : Int) }, removed := false }

/-- client_data_handler for ClientData (rmw_client_data.cpp lines
40-80): drops the reply when the store is shut down or z_reply_is_ok is
false (with a log), otherwise buffers it once via add_new_reply. -/
def client_data_handler (qos : QosProfile) (s : ClientState) (reply_ok : Bool)
    (r : ZenohReply) : ClientState :=
  if s.is_shutdown then s
  else if reply_ok = false then s
  else (add_new_reply qos s r).state

/-- client_data_handler for rmw_client_data_t (rmw_data_types.cpp lines
148-192).  When the reply is ok the function clones it and calls
add_new_reply inside the if-branch (line 168, a copy carrying no
received timestamp) and then falls through to a second add_new_reply of
the same reply with the received timestamp (line 189); a not-ok reply is
logged and dropped. -/
def client_data_handler_data_types (qos : QosProfile) (s : ClientState) (reply_ok : Bool)
    (cloned : ZenohReply) (stamped : ZenohReply) : ClientState :=
  if s.is_shutdown then s
  else if reply_ok then
    let s1 := (add_new_reply qos s cloned).state
    (add_new_reply qos s1 stamped).state
  else s

/-- A well-formed accepted reply with distinguishing sequence number n,
used as concrete input in witnesses. -/
def mkReply (n : Int) : ZenohReply :=
  { sample_ok := true, deserialize_ok := true, sequence_number := n,
    source_timestamp := n, source_gid := List.replicate 16 0, received_timestamp := n }

/- ----------------------------------------------------------------
   Graph-event liveliness handler (rmw_context_impl_s.cpp)
   ---------------------------------------------------------------- -/

/-- The kind of a liveliness sample (z_sample_kind_t): PUT, DELETE, or
any other value, which falls into the default branch of the switch. -/
inductive ZSampleKind where
  | put
  | delete
  | other
deriving DecidableEq, Repr

/-- An operation applied to the GraphCache (graph_cache.cpp is an
external dependency here; only which method is called with which key
matters to the handler). -/
inductive GraphOp where
  | parsePut (keystr : String)
  | parseDel (keystr : String)
deriving DecidableEq, Repr

/-- The part of rmw_context_impl_s::Data that graph_sub_data_handler
touches: the shutdown flag, the trace of operations applied to the
graph cache, and the number of rmw_trigger_guard_condition calls on the
graph guard condition. -/
structure ContextData where
  is_shutdown : Bool
  graph_cache : List GraphOp
  guard_trigger_count : Nat
deriving DecidableEq, Repr

/-- rmw_context_impl_s::graph_sub_data_handler (rmw_context_impl_s.cpp
lines 29-70): under the data mutex, returns early when shut down;
applies parse_put or parse_del for PUT or DELETE samples and then
triggers the graph guard condition once; returns without triggering on
any other sample kind. -/
def graph_sub_data_handler (d : ContextData) (keystr : String) (kind : ZSampleKind) :
    ContextData :=
  if d.is_shutdown then d
  else
    match kind with
    | ZSampleKind.put =>
      let d1 : ContextData := { d with graph_cache := d.graph_cache ++ [GraphOp.parsePut keystr] }
      { d1 with guard_trigger_count := d1.guard_trigger_count + 1 }
    | ZSampleKind.delete =>
      let d1 : ContextData := { d with graph_cache := d.graph_cache ++ [GraphOp.parseDel keystr] }
      { d1 with guard_trigger_count := d1.guard_trigger_count + 1 }
    | ZSampleKind.other => d

/- ----------------------------------------------------------------
   Theorems
   ---------------------------------------------------------------- -/

/-- Claim C9: calling send_request on a store that is already shut down
returns RMW_RET_OK, does not issue any transport query, does not assign
(consume) a sequence number, and leaves the store state unchanged, so
the caller receives no indication that the request was not sent. -/
theorem c9_send_request_after_shutdown (s : ClientState) (inp : SendInput) :
    send_request { s with is_shutdown := true } inp =
      { ret := RmwRet.ok, sequence_id := none, issued_query := false,
        state := { s with is_shutdown := true } } := by
  simp [send_request]

/-- Claim C10: after shutdown, take_response returns RMW_RET_OK with
taken = false, returns no reply, and leaves the reply queue (and the
whole store state) unchanged, even when replies are still buffered. -/
theorem c10_take_response_after_shutdown (s : ClientState) :
    take_response { s with is_shutdown := true } =
      { ret := RmwRet.ok, taken := false, response := none,
        state := { s with is_shutdown := true } } := by
  simp [take_response]

/-- Claim C2, evaluation of the code: ClientData::send_request never
modifies num_in_flight_ (first conjunct, over every state and input), so
no in-flight callback is registered before the call returns; and on a
non-shut-down store where allocation and serialization succeed but the
z_get transport call fails, it still returns RMW_RET_OK (second
conjunct), so no TransportError is surfaced and there is no registration
to roll back.  This contradicts the claim. -/
theorem c2_send_request_no_in_flight_registration (s : ClientState) (inp : SendInput) :
    (send_request s inp).state.num_in_flight = s.num_in_flight
    ∧ (send_request { s with is_shutdown := false }
        { inp with
          context_valid := true
          alloc_ok := true
          serialize_ok := true
          z_get_ok := false }).ret = RmwRet.ok := by
  constructor
  · simp only [send_request]
    split
    · rfl
    · split
      · rfl
      · split
        · rfl
        · split <;> rfl
  · simp [send_request]

/-- Claim C7, evaluation of the code: one invocation of the
rmw_data_types.cpp client_data_handler with an ok reply on a
non-shut-down store with keep-all history appends two entries to the
reply queue (the clone without a received timestamp, then the stamped
reply), not exactly one; the rmw_client_data.cpp handler for ClientData
appends exactly one (second conjunct). -/
theorem c7_reply_handler_double_enqueue (s : ClientState) (cloned stamped r : ZenohReply) :
    (client_data_handler_data_types { history_keep_all := true, depth := 0 }
        { s with is_shutdown := false } true cloned stamped).reply_queue
      = s.reply_queue ++ [cloned, stamped]
    ∧ (client_data_handler { history_keep_all := true, depth := 0 }
        { s with is_shutdown := false } true r).reply_queue
      = s.reply_queue ++ [r] := by
  constructor
  · simp [client_data_handler_data_types, add_new_reply]
  · simp [client_data_handler, add_new_reply]

/-- Claim C8: on a non-shut-down session, a PUT or DELETE liveliness
sample applied to the graph cache triggers the graph guard condition
exactly once per event and appends exactly the corresponding parse
operation to the cache; a sample of any other kind changes nothing and
raises no notification. -/
theorem c8_graph_event_notification (d : ContextData) (key : String) :
    ((graph_sub_data_handler { d with is_shutdown := false } key ZSampleKind.put).guard_trigger_count
        = d.guard_trigger_count + 1
      ∧ (graph_sub_data_handler { d with is_shutdown := false } key ZSampleKind.put).graph_cache
        = d.graph_cache ++ [GraphOp.parsePut key])
    ∧ ((graph_sub_data_handler { d with is_shutdown := false } key ZSampleKind.delete).guard_trigger_count
        = d.guard_trigger_count + 1
      ∧ (graph_sub_data_handler { d with is_shutdown := false } key ZSampleKind.delete).graph_cache
        = d.graph_cache ++ [GraphOp.parseDel key])
    ∧ graph_sub_data_handler { d with is_shutdown := false } key ZSampleKind.other
        = { d with is_shutdown := false } := by
  refine ⟨⟨?_, ?_⟩, ⟨?_, ?_⟩, ?_⟩ <;> simp [graph_sub_data_handler]

theorem clientRun_nil (l : ClientLifecycle) : clientRun l [] = l := rfl

theorem clientRun_cons (l : ClientLifecycle) (e : ClientEvent) (es : List ClientEvent) :
    clientRun l (e :: es) = clientRun (clientStep l e) es := rfl

theorem clientRun_append (l : ClientLifecycle) (es fs : List ClientEvent) :
    clientRun l (es ++ fs) = clientRun (clientRun l es) fs :=
  List.foldl_append clientStep l es fs

/-- Drop callbacks on a store that is not shut down never remove it:
each decrement leaves the removed flag and the shutdown flag untouched
and lowers the count by one. -/
theorem clientRun_drops_live (n : Nat) :
    ∀ l : ClientLifecycle, l.removed = false → l.client.is_shutdown = false →
      (clientRun l (List.replicate n ClientEvent.dropCallback)).removed = false
      ∧ (clientRun l (List.replicate n ClientEvent.dropCallback)).client.is_shutdown = false
      ∧ (clientRun l (List.replicate n ClientEvent.dropCallback)).client.num_in_flight
          = l.client.num_in_flight - n := by
  induction n with
  | zero =>
    intro l h0 h1
    simp [clientRun_nil, h0, h1]
  | succ n ih =>
    intro l h0 h1
    rw [List.replicate_succ, clientRun_cons]
    have hstep : clientStep l ClientEvent.dropCallback =
        { client := { l.client with num_in_flight := l.client.num_in_flight - 1 },
          removed := l.removed } := by
      simp [clientStep, decrement_in_flight_and_conditionally_remove, h1]
    rw [hstep]
    obtain ⟨r0, r1, r2⟩ := ih
      { client := { l.client with num_in_flight := l.client.num_in_flight - 1 },
        removed := l.removed } h0 h1
    refine ⟨r0, r1, ?_⟩
    rw [r2]
    push_cast
    ring

/-- Drop callbacks on a shut-down store whose in-flight count stays
positive throughout: the store is not removed and the count drops by
the number of callbacks. -/
theorem clientRun_drops_shutdown (n : Nat) :
    ∀ l : ClientLifecycle, l.removed = false → l.client.is_shutdown = true →
      (n : Int) < l.client.num_in_flight →
      (clientRun l (List.replicate n ClientEvent.dropCallback)).removed = false
      ∧ (clientRun l (List.replicate n ClientEvent.dropCallback)).client.is_shutdown = true
      ∧ (clientRun l (List.replicate n ClientEvent.dropCallback)).client.num_in_flight
          = l.client.num_in_flight - n := by
  induction n with
  | zero =>
    intro l h0 h1 h2
    simp [clientRun_nil, h0, h1]
  | succ n ih =>
    intro l h0 h1 h2
    rw [List.replicate_succ, clientRun_cons]
    have hne : l.client.num_in_flight - 1 ≠ 0 := by
      have : ((n : Int) + 1) < l.client.num_in_flight := by push_cast at h2; omega
      omega
    have hstep : clientStep l ClientEvent.dropCallback =
        { client := { l.client with num_in_flight := l.client.num_in_flight - 1 },
          removed := l.removed } := by
      simp [clientStep, decrement_in_flight_and_conditionally_remove, h1, hne]
    rw [hstep]
    have hlt : (n : Int) < l.client.num_in_flight - 1 := by push_cast at h2; omega
    obtain ⟨r0, r1, r2⟩ := ih
      { client := { l.client with num_in_flight := l.client.num_in_flight - 1 },
        removed := l.removed } h0 h1 hlt
    refine ⟨r0, r1, ?_⟩
    rw [r2]
    push_cast
    ring

/-- Claim C1: the store is destroyed only when the shutdown flag is set
and the in-flight count is zero.  For every interleaving in which
shutdown() is requested while in-flight callbacks remain (j of the M
callbacks have completed, j < M), the removal of the store from its
owning NodeData happens exactly at the decrement that reaches zero:
every shorter run of completions leaves the store in place (third
conjunct), the full run removes it with the count at zero (first and
second conjuncts), and in general a step can newly remove the store
only in a state with shutdown set and count zero (fourth conjunct). -/
theorem c1_teardown_gate (M j : Nat) (hj : j < M) :
    (clientRun (lifecycleWithInFlight M)
        (List.replicate j ClientEvent.dropCallback ++
          ClientEvent.shutdownCall :: List.replicate (M - j) ClientEvent.dropCallback)).removed
      = true
    ∧ (clientRun (lifecycleWithInFlight M)
        (List.replicate j ClientEvent.dropCallback ++
          ClientEvent.shutdownCall :: List.replicate (M - j) ClientEvent.dropCallback)).client.num_in_flight
      = 0
    ∧ (∀ i, i < M - j →
        (clientRun (lifecycleWithInFlight M)
          (List.replicate j ClientEvent.dropCallback ++
            ClientEvent.shutdownCall :: List.replicate i ClientEvent.dropCallback)).removed
        = false)
    ∧ (∀ (l : ClientLifecycle) (e : ClientEvent),
        l.removed = false → (clientStep l e).removed = true →
        (clientStep l e).client.is_shutdown = true
        ∧ (clientStep l e).client.num_in_flight = 0) := by
  have hlive := clientRun_drops_live j (lifecycleWithInFlight M) rfl rfl
  obtain ⟨p0, p1, p2⟩ := hlive
  have hcount : (clientRun (lifecycleWithInFlight M)
      (List.replicate j ClientEvent.dropCallback)).client.num_in_flight
      = (M : Int) - (j : Int) := by
    rw [p2]; rfl
  -- the shutdown step
  have hshut : ∀ l : ClientLifecycle, l.client.is_shutdown = false →
      clientStep l ClientEvent.shutdownCall =
        { client := { l.client with is_shutdown := true }, removed := l.removed } := by
    intro l h
    simp [clientStep, ClientData_shutdown, shutdownInternal, h]
  set s1 := clientRun (lifecycleWithInFlight M) (List.replicate j ClientEvent.dropCallback) with hs1
  have hstep1 : clientStep s1 ClientEvent.shutdownCall =
      { client := { s1.client with is_shutdown := true }, removed := s1.removed } :=
    hshut s1 p1
  have hMj : 0 < M - j := by omega
  have hcast : ((M - j : Nat) : Int) = (M : Int) - (j : Int) := by
    omega
  refine ⟨?_, ?_, ?_, ?_⟩
  · rw [clientRun_append, clientRun_cons, ← hs1, hstep1]
    have hrep : M - j = (M - j - 1) + 1 := by omega
    rw [hrep, List.replicate_succ', clientRun_append]
    have hlt : ((M - j - 1 : Nat) : Int) <
        ({ client := { s1.client with is_shutdown := true }, removed := s1.removed } :
          ClientLifecycle).client.num_in_flight := by
      simp only [hcount]
      omega
    obtain ⟨q0, q1, q2⟩ := clientRun_drops_shutdown (M - j - 1)
      { client := { s1.client with is_shutdown := true }, removed := s1.removed }
      (by simp [p0]) (by simp) hlt
    set s2 := clientRun
      { client := { s1.client with is_shutdown := true }, removed := s1.removed }
      (List.replicate (M - j - 1) ClientEvent.dropCallback) with hs2
    have hone : s2.client.num_in_flight = 1 := by
      rw [q2]
      simp only [hcount]
      omega
    show (clientRun s2 [ClientEvent.dropCallback]).removed = true
    rw [clientRun_cons, clientRun_nil]
    simp [clientStep, decrement_in_flight_and_conditionally_remove, q1, hone]
  · rw [clientRun_append, clientRun_cons, ← hs1, hstep1]
    have hrep : M - j = (M - j - 1) + 1 := by omega
    rw [hrep, List.replicate_succ', clientRun_append]
    have hlt : ((M - j - 1 : Nat) : Int) <
        ({ client := { s1.client with is_shutdown := true }, removed := s1.removed } :
          ClientLifecycle).client.num_in_flight := by
      simp only [hcount]
      omega
    obtain ⟨q0, q1, q2⟩ := clientRun_drops_shutdown (M - j - 1)
      { client := { s1.client with is_shutdown := true }, removed := s1.removed }
      (by simp [p0]) (by simp) hlt
    set s2 := clientRun
      { client := { s1.client with is_shutdown := true }, removed := s1.removed }
      (List.replicate (M - j - 1) ClientEvent.dropCallback) with hs2
    have hone : s2.client.num_in_flight = 1 := by
      rw [q2]
      simp only [hcount]
      omega
    show (clientRun s2 [ClientEvent.dropCallback]).client.num_in_flight = 0
    rw [clientRun_cons, clientRun_nil]
    simp [clientStep, decrement_in_flight_and_conditionally_remove, q1, hone]
  · intro i hi
    rw [clientRun_append, clientRun_cons, ← hs1, hstep1]
    have hlt : ((i : Nat) : Int) <
        ({ client := { s1.client with is_shutdown := true }, removed := s1.removed } :
          ClientLifecycle).client.num_in_flight := by
      simp only [hcount]
      omega
    exact (clientRun_drops_shutdown i
      { client := { s1.client with is_shutdown := true }, removed := s1.removed }
      (by simp [p0]) (by simp) hlt).1
  · intro l e h0 h1
    cases e with
    | shutdownCall =>
      exfalso
      have : ({ l with client := (ClientData_shutdown true l.client).1 } :
          ClientLifecycle).removed = l.removed := rfl
      rw [clientStep] at h1
      rw [this] at h1
      rw [h0] at h1
      exact Bool.false_ne_true h1
    | dropCallback =>
      rw [clientStep, decrement_in_flight_and_conditionally_remove] at h1 ⊢
      by_cases hc : ({ l.client with num_in_flight := l.client.num_in_flight - 1 } :
          ClientState).is_shutdown
          && ({ l.client with num_in_flight := l.client.num_in_flight - 1 } :
            ClientState).num_in_flight == 0
      · simp only [hc, if_true]
        have hb := hc
        rw [Bool.and_eq_true] at hb
        refine ⟨hb.1, ?_⟩
        have := hb.2
        rwa [beq_iff_eq] at this
      · exfalso
        simp only [hc, if_false] at h1
        rw [h0] at h1
        exact Bool.false_ne_true h1

/-- Witness for c1_teardown_gate at M = 2, j = 1: one callback
completes, shutdown is requested with one still in flight, and the
final completion removes the store. -/
theorem c1_teardown_gate_witness :
    (clientRun (lifecycleWithInFlight 2)
        (List.replicate 1 ClientEvent.dropCallback ++
          ClientEvent.shutdownCall :: List.replicate (2 - 1) ClientEvent.dropCallback)).removed
      = true :=
  (c1_teardown_gate 2 1 (by decide)).1

/-- On a live store, a send_request call whose local steps all succeed
assigns the current sequence number and advances the counter by one. -/
theorem send_request_succeeds (s : ClientState) (inp : SendInput)
    (h : s.is_shutdown = false) (h2 : sendSucceeds inp = true) :
    send_request s inp =
      { ret := RmwRet.ok, sequence_id := some s.sequence_number, issued_query := true,
        state := { s with sequence_number := s.sequence_number + 1 } } := by
  rw [sendSucceeds, Bool.and_eq_true, Bool.and_eq_true] at h2
  simp [send_request, h, h2.1.1, h2.1.2, h2.2]

/-- On a live store, a send_request call that fails before the
assignment leaves the state unchanged and assigns no sequence number. -/
theorem send_request_fails (s : ClientState) (inp : SendInput)
    (h : s.is_shutdown = false) (h2 : sendSucceeds inp = false) :
    (send_request s inp).sequence_id = none ∧ (send_request s inp).state = s := by
  cases hc : inp.context_valid <;> cases ha : inp.alloc_ok <;>
    cases hs2 : inp.serialize_ok <;>
    simp_all [send_request, sendSucceeds]

/-- The sequence ids assigned by a batch of send_request calls on a live
store are consecutive starting from the current counter value, one per
call that reaches the assignment. -/
theorem runSendRequests_ids :
    ∀ (inputs : List SendInput) (s : ClientState), s.is_shutdown = false →
      (runSendRequests s inputs).1
        = (List.range (successCount inputs)).map (fun i : Nat => s.sequence_number + i) := by
  intro inputs
  induction inputs with
  | nil =>
    intro s h
    simp [runSendRequests, successCount]
  | cons inp rest ih =>
    intro s h
    by_cases h1 : sendSucceeds inp = true
    · have hstep := send_request_succeeds s inp h h1
      have hcount : successCount (inp :: rest) = successCount rest + 1 := by
        simp [successCount, List.countP_cons, h1]
      rw [runSendRequests]
      rw [hstep]
      have htail := ih { s with sequence_number := s.sequence_number + 1 } h
      simp only [htail]
      rw [hcount, List.range_succ_eq_map, List.map_cons, List.map_map]
      simp only [Nat.cast_zero, add_zero, List.cons.injEq]
      refine ⟨trivial, ?_⟩
      apply List.map_congr_left
      intro a _
      simp only [Function.comp_apply, Nat.succ_eq_add_one]
      push_cast
      ring
    · rw [Bool.not_eq_true] at h1
      have hstep := send_request_fails s inp h h1
      have hcount : successCount (inp :: rest) = successCount rest := by
        simp [successCount, List.countP_cons, h1]
      rw [runSendRequests]
      rw [hstep.1, hstep.2]
      rw [hcount]
      exact ih s h

/-- Claim C6: over any batch of send_request calls on a fresh store, the
assigned sequence ids are exactly 1, 2, 3, ... (one per call reaching
the assignment, so the series starts at 1), hence strictly increasing
and never repeating. -/
theorem c6_sequence_numbers_strictly_increasing (inputs : List SendInput) :
    (runSendRequests initClientState inputs).1
      = (List.range (successCount inputs)).map (fun i : Nat => (1 : Int) + i)
    ∧ List.Pairwise (fun a b : Int => a < b) (runSendRequests initClientState inputs).1
    ∧ ((runSendRequests initClientState inputs).1).Nodup := by
  have h := runSendRequests_ids inputs initClientState rfl
  have h1 : initClientState.sequence_number = 1 := rfl
  rw [h1] at h
  have hpair : List.Pairwise (fun a b : Int => a < b)
      (runSendRequests initClientState inputs).1 := by
    rw [h]
    refine List.Pairwise.map _ ?_ (List.pairwise_lt_range _)
    intro a b hab
    omega
  refine ⟨h, hpair, ?_⟩
  exact hpair.imp fun hab => ne_of_lt hab

/-- One bounded add step, phrased on the suffix abstraction: if the
queue holds the last (at most) N entries of a history M, then after
add_new_reply it holds the last N entries of M ++ [r]. -/
theorem add_new_reply_suffix (N : Nat) (hN : 0 < N) (s : ClientState)
    (M : List ZenohReply) (r : ZenohReply)
    (hq : s.reply_queue = M.drop (M.length - N)) :
    (add_new_reply { history_keep_all := false, depth := N } s r).state.reply_queue
      = (M ++ [r]).drop ((M ++ [r]).length - N) := by
  have hlen : s.reply_queue.length = M.length - (M.length - N) := by
    rw [hq, List.length_drop]
  by_cases hM : N ≤ M.length
  · have hge : s.reply_queue.length ≥ N := by omega
    have hcond : (!(false : Bool) && decide (s.reply_queue.length ≥ N)) = true := by
      simp [hge]
    rw [add_new_reply]
    simp only [hcond, if_true]
    rw [hq, List.drop_drop]
    have hidx : (M ++ [r]).length - N = (M.length - N) + 1 := by
      simp only [List.length_append, List.length_cons, List.length_nil]
      omega
    rw [hidx]
    have hle : (M.length - N) + 1 ≤ M.length := by omega
    rw [List.drop_append_of_le_length hle]
  · have hlt : s.reply_queue.length < N := by omega
    have hcond : (!(false : Bool) && decide (s.reply_queue.length ≥ N)) = false := by
      simp
      omega
    rw [add_new_reply]
    simp only [hcond, Bool.false_eq_true, if_false]
    have h0 : M.length - N = 0 := by omega
    have h1 : (M ++ [r]).length - N = 0 := by
      simp only [List.length_append, List.length_cons, List.length_nil]
      omega
    rw [hq, h0, h1, List.drop_zero, List.drop_zero]

/-- Delivering a batch of replies through the bounded queue keeps
exactly the last (at most) N of the whole history. -/
theorem runAddReplies_suffix (N : Nat) (hN : 0 < N) :
    ∀ (rs : List ZenohReply) (s : ClientState) (M : List ZenohReply),
      s.reply_queue = M.drop (M.length - N) →
      (runAddReplies { history_keep_all := false, depth := N } s rs).1.reply_queue
        = (M ++ rs).drop ((M ++ rs).length - N) := by
  intro rs
  induction rs with
  | nil =>
    intro s M hq
    simpa [runAddReplies] using hq
  | cons r rest ih =>
    intro s M hq
    rw [runAddReplies]
    have hstep := add_new_reply_suffix N hN s M r hq
    have htail := ih (add_new_reply { history_keep_all := false, depth := N } s r).state
      (M ++ [r]) hstep
    simpa [List.append_assoc] using htail

/-- add_new_reply never changes the shutdown flag. -/
theorem runAddReplies_is_shutdown (qos : QosProfile) :
    ∀ (rs : List ZenohReply) (s : ClientState),
      (runAddReplies qos s rs).1.is_shutdown = s.is_shutdown := by
  intro rs
  induction rs with
  | nil => intro s; rfl
  | cons r rest ih =>
    intro s
    rw [runAddReplies]
    have hkeep : (add_new_reply qos s r).state.is_shutdown = s.is_shutdown := by
      rw [add_new_reply]
      split <;> rfl
    rw [ih]
    rw [hkeep]

/-- Conservation law of the bounded queue: the final length plus the
number of logged evictions equals the initial length plus the number of
delivered replies, and the length never exceeds the depth. -/
theorem runAddReplies_evictions (N : Nat) (hN : 0 < N) :
    ∀ (rs : List ZenohReply) (s : ClientState), s.reply_queue.length ≤ N →
      (runAddReplies { history_keep_all := false, depth := N } s rs).1.reply_queue.length
          + (runAddReplies { history_keep_all := false, depth := N } s rs).2
        = s.reply_queue.length + rs.length
      ∧ (runAddReplies { history_keep_all := false, depth := N } s rs).1.reply_queue.length ≤ N := by
  intro rs
  induction rs with
  | nil =>
    intro s hs
    simpa [runAddReplies] using hs
  | cons r rest ih =>
    intro s hs
    rw [runAddReplies]
    by_cases hge : s.reply_queue.length ≥ N
    · have hcond : (!(false : Bool) && decide (s.reply_queue.length ≥ N)) = true := by
        simp [hge]
      have hpos : s.reply_queue.length ≠ 0 := by omega
      have hlen1 : (add_new_reply { history_keep_all := false, depth := N } s r).state.reply_queue.length
          = s.reply_queue.length := by
        rw [add_new_reply]
        simp only [hcond, if_true]
        simp only [List.length_append, List.length_drop, List.length_cons, List.length_nil]
        omega
      have hlog : (add_new_reply { history_keep_all := false, depth := N } s r).logged_data_loss
          = true := by
        rw [add_new_reply]
        simp only [hcond, if_true]
      obtain ⟨e1, e2⟩ := ih (add_new_reply { history_keep_all := false, depth := N } s r).state
        (by rw [hlen1]; exact hs)
      refine ⟨?_, e2⟩
      rw [hlog]
      simp only [if_true, List.length_cons]
      omega
    · have hcond : (!(false : Bool) && decide (s.reply_queue.length ≥ N)) = false := by
        simp
        omega
      have hlen1 : (add_new_reply { history_keep_all := false, depth := N } s r).state.reply_queue.length
          = s.reply_queue.length + 1 := by
        rw [add_new_reply]
        simp only [hcond, Bool.false_eq_true, if_false]
        simp
      have hlog : (add_new_reply { history_keep_all := false, depth := N } s r).logged_data_loss
          = false := by
        rw [add_new_reply]
        simp only [hcond, Bool.false_eq_true, if_false]
      obtain ⟨e1, e2⟩ := ih (add_new_reply { history_keep_all := false, depth := N } s r).state
        (by rw [hlen1]; omega)
      refine ⟨?_, e2⟩
      rw [hlog]
      simp only [Bool.false_eq_true, if_false, List.length_cons]
      omega

/-- take_response on a live store whose head reply passes every check
returns that reply with taken = true and pops it. -/
theorem take_response_ok (s : ClientState) (r : ZenohReply) (rest : List ZenohReply)
    (h : s.is_shutdown = false) (hq : s.reply_queue = r :: rest) (hr : ReplyOk r) :
    take_response s =
      { ret := RmwRet.ok, taken := true, response := some r,
        state := { s with reply_queue := rest } } := by
  obtain ⟨w1, w2, w3, w4⟩ := hr
  rw [take_response]
  simp [h, hq, w1, w2, not_lt.mpr w3, not_lt.mpr w4]

/-- Draining a live store whose buffered replies all pass the checks
returns exactly the buffered replies in queue order. -/
theorem takeLoop_drains :
    ∀ (q : List ZenohReply) (s : ClientState), s.is_shutdown = false →
      s.reply_queue = q → (∀ r ∈ q, ReplyOk r) →
      takeLoop q.length s = q := by
  intro q
  induction q with
  | nil => intro s h hq hwf; rfl
  | cons r rest ih =>
    intro s h hq hwf
    have hr : ReplyOk r := hwf r (by simp)
    have hres := take_response_ok s r rest h hq hr
    show takeLoop (rest.length + 1) s = r :: rest
    rw [takeLoop]
    rw [hres]
    simp only []
    have htail := ih { s with reply_queue := rest } h rfl
      (fun x hx => hwf x (by simp [hx]))
    rw [htail]

/-- Claim C3: with history not keep-all and depth N, after N + k
accepted replies delivered in order the queue holds exactly the last N
of them (the first k were evicted oldest-first), exactly k data-loss
log events were emitted (one per eviction), the queue never exceeded N
entries at any prefix of the delivery, and successive take_response
calls return exactly replies k+1 .. N+k in delivery order. -/
theorem c3_bounded_reply_buffering (N k : Nat) (hN : 0 < N) (rs : List ZenohReply)
    (hlen : rs.length = N + k) (hwf : ∀ r ∈ rs, ReplyOk r) :
    (runAddReplies { history_keep_all := false, depth := N } initClientState rs).1.reply_queue
      = rs.drop k
    ∧ (runAddReplies { history_keep_all := false, depth := N } initClientState rs).2 = k
    ∧ (∀ j, (runAddReplies { history_keep_all := false, depth := N }
        initClientState (rs.take j)).1.reply_queue.length ≤ N)
    ∧ takeAllReplies
        (runAddReplies { history_keep_all := false, depth := N } initClientState rs).1
      = rs.drop k := by
  have hqueue : (runAddReplies { history_keep_all := false, depth := N }
      initClientState rs).1.reply_queue = rs.drop k := by
    have h := runAddReplies_suffix N hN rs initClientState [] (by simp [initClientState])
    simp only [List.nil_append] at h
    rw [h, hlen]
    have : N + k - N = k := by omega
    rw [this]
  have hcons := runAddReplies_evictions N hN rs initClientState (by simp [initClientState])
  have hfinallen : (runAddReplies { history_keep_all := false, depth := N }
      initClientState rs).1.reply_queue.length = N := by
    rw [hqueue, List.length_drop, hlen]
    omega
  refine ⟨hqueue, ?_, ?_, ?_⟩
  · have heq := hcons.1
    rw [hfinallen, hlen] at heq
    have hinit : initClientState.reply_queue.length = 0 := rfl
    rw [hinit] at heq
    omega
  · intro j
    exact (runAddReplies_evictions N hN (rs.take j) initClientState
      (by simp [initClientState])).2
  · rw [takeAllReplies]
    rw [hqueue]
    exact takeLoop_drains (rs.drop k)
      (runAddReplies { history_keep_all := false, depth := N } initClientState rs).1
      (by rw [runAddReplies_is_shutdown]; rfl) hqueue
      (fun x hx => hwf x (List.mem_of_mem_drop hx))

/-- Witness for c3_bounded_reply_buffering at N = 2, k = 1 with three
concrete well-formed replies: the oldest is evicted and the queue holds
the last two in order. -/
theorem c3_bounded_reply_buffering_witness :
    (runAddReplies { history_keep_all := false, depth := 2 }
        initClientState [mkReply 1, mkReply 2, mkReply 3]).1.reply_queue
      = [mkReply 1, mkReply 2, mkReply 3].drop 1
    ∧ (runAddReplies { history_keep_all := false, depth := 2 }
        initClientState [mkReply 1, mkReply 2, mkReply 3]).2 = 1 := by
  have h := c3_bounded_reply_buffering 2 1 (by decide) [mkReply 1, mkReply 2, mkReply 3]
    (by decide) (by decide)
  exact ⟨h.1, h.2.1⟩

theorem deserialize_string_some {ts : List ZToken} {s : String} {rest : List ZToken} :
    ze_deserializer_deserialize_string ts = some (s, rest) ↔ ts = ZToken.str s :: rest := by
  cases ts with
  | nil => simp [ze_deserializer_deserialize_string]
  | cons hd tl => cases hd <;> simp [ze_deserializer_deserialize_string]

theorem deserialize_int64_some {ts : List ZToken} {n : Int} {rest : List ZToken} :
    ze_deserializer_deserialize_int64 ts = some (n, rest) ↔ ts = ZToken.int64 n :: rest := by
  cases ts with
  | nil => simp [ze_deserializer_deserialize_int64]
  | cons hd tl => cases hd <;> simp [ze_deserializer_deserialize_int64]

theorem deserialize_slice_some {ts : List ZToken} {b : List Nat} {rest : List ZToken} :
    ze_deserializer_deserialize_slice ts = some (b, rest) ↔ ts = ZToken.slice b :: rest := by
  cases ts with
  | nil => simp [ze_deserializer_deserialize_slice]
  | cons hd tl => cases hd <;> simp [ze_deserializer_deserialize_slice]

theorem readTag_some {tag : String} {ts rest : List ZToken} :
    readTag tag ts = some rest ↔ ts = ZToken.str tag :: rest := by
  cases ts with
  | nil => simp [readTag, ze_deserializer_deserialize_string]
  | cons hd tl =>
    cases hd with
    | str s =>
      by_cases h : s = tag
      · subst h
        simp [readTag, ze_deserializer_deserialize_string]
      · simp [readTag, ze_deserializer_deserialize_string, h]
    | int64 n => simp [readTag, ze_deserializer_deserialize_string]
    | slice b => simp [readTag, ze_deserializer_deserialize_string]

theorem readTag_none {tag : String} {ts : List ZToken}
    (h : startsWithStr tag ts = false) : readTag tag ts = none := by
  cases ts with
  | nil => rfl
  | cons hd tl =>
    cases hd with
    | str s =>
      simp only [startsWithStr, beq_eq_false_iff_ne, ne_eq] at h
      simp [readTag, ze_deserializer_deserialize_string, h]
    | int64 n => rfl
    | slice b => rfl

theorem deserialize_int64_none {ts : List ZToken}
    (h : startsWithInt64 ts = false) : ze_deserializer_deserialize_int64 ts = none := by
  cases ts with
  | nil => rfl
  | cons hd tl =>
    cases hd with
    | str s => rfl
    | int64 n => simp [startsWithInt64] at h
    | slice b => rfl

theorem deserialize_slice_none {ts : List ZToken}
    (h : startsWithSlice ts = false) : ze_deserializer_deserialize_slice ts = none := by
  cases ts with
  | nil => rfl
  | cons hd tl =>
    cases hd with
    | str s => rfl
    | int64 n => rfl
    | slice b => simp [startsWithSlice] at h

/-- Claim C4: attachment decoding is strict.  A successful decode is
possible only for a stream that carries the tags "sequence_number",
"source_timestamp" and "source_gid" in exactly that order, each followed
by a value of the right kind, with a gid of exactly 16 bytes (first
conjunct); and each of the seven failure classes produces its own
distinct error: a wrong or missing first, second or third tag, a failed
int64 decode after either numeric tag, a failed slice decode, or a gid
length other than 16.  In the Except model an error carries no
AttachmentData, matching the C++ constructor throw that produces no
partially initialized object. -/
theorem c4_attachment_decode_strict (ts : List ZToken) :
    (∀ a : AttachmentData, AttachmentData.fromZBytes ts = Except.ok a →
      ∃ rest, ts = ZToken.str "sequence_number" :: ZToken.int64 a.sequence_number ::
          ZToken.str "source_timestamp" :: ZToken.int64 a.source_timestamp ::
          ZToken.str "source_gid" :: ZToken.slice a.source_gid :: rest
        ∧ a.source_gid.length = 16)
    ∧ (startsWithStr "sequence_number" ts = false →
        AttachmentData.fromZBytes ts
          = Except.error AttachmentDecodeError.sequenceNumberTagNotFound)
    ∧ (∀ r1, ts = ZToken.str "sequence_number" :: r1 →
        startsWithInt64 r1 = false →
        AttachmentData.fromZBytes ts
          = Except.error AttachmentDecodeError.sequenceNumberDeserializeFailed)
    ∧ (∀ n r2, ts = ZToken.str "sequence_number" :: ZToken.int64 n :: r2 →
        startsWithStr "source_timestamp" r2 = false →
        AttachmentData.fromZBytes ts
          = Except.error AttachmentDecodeError.sourceTimestampTagNotFound)
    ∧ (∀ n r3, ts = ZToken.str "sequence_number" :: ZToken.int64 n ::
          ZToken.str "source_timestamp" :: r3 →
        startsWithInt64 r3 = false →
        AttachmentData.fromZBytes ts
          = Except.error AttachmentDecodeError.sourceTimestampDeserializeFailed)
    ∧ (∀ n m r4, ts = ZToken.str "sequence_number" :: ZToken.int64 n ::
          ZToken.str "source_timestamp" :: ZToken.int64 m :: r4 →
        startsWithStr "source_gid" r4 = false →
        AttachmentData.fromZBytes ts
          = Except.error AttachmentDecodeError.sourceGidTagNotFound)
    ∧ (∀ n m r5, ts = ZToken.str "sequence_number" :: ZToken.int64 n ::
          ZToken.str "source_timestamp" :: ZToken.int64 m ::
          ZToken.str "source_gid" :: r5 →
        startsWithSlice r5 = false →
        AttachmentData.fromZBytes ts
          = Except.error AttachmentDecodeError.sourceGidDeserializeFailed)
    ∧ (∀ n m g r6, ts = ZToken.str "sequence_number" :: ZToken.int64 n ::
          ZToken.str "source_timestamp" :: ZToken.int64 m ::
          ZToken.str "source_gid" :: ZToken.slice g :: r6 →
        g.length ≠ 16 →
        AttachmentData.fromZBytes ts
          = Except.error AttachmentDecodeError.sourceGidLengthMismatch) := by
  refine ⟨?_, ?_, ?_, ?_, ?_, ?_, ?_, ?_⟩
  · intro a h
    cases h1 : readTag "sequence_number" ts with
    | none => simp [AttachmentData.fromZBytes, h1] at h
    | some ts1 =>
      cases h2 : ze_deserializer_deserialize_int64 ts1 with
      | none => simp [AttachmentData.fromZBytes, h1, h2] at h
      | some p2 =>
        obtain ⟨seq, ts2⟩ := p2
        cases h3 : readTag "source_timestamp" ts2 with
        | none => simp [AttachmentData.fromZBytes, h1, h2, h3] at h
        | some ts3 =>
          cases h4 : ze_deserializer_deserialize_int64 ts3 with
          | none => simp [AttachmentData.fromZBytes, h1, h2, h3, h4] at h
          | some p4 =>
            obtain ⟨stamp, ts4⟩ := p4
            cases h5 : readTag "source_gid" ts4 with
            | none => simp [AttachmentData.fromZBytes, h1, h2, h3, h4, h5] at h
            | some ts5 =>
              cases h6 : ze_deserializer_deserialize_slice ts5 with
              | none => simp [AttachmentData.fromZBytes, h1, h2, h3, h4, h5, h6] at h
              | some p6 =>
                obtain ⟨gid, ts6⟩ := p6
                simp only [AttachmentData.fromZBytes, h1, h2, h3, h4, h5, h6] at h
                by_cases hg : gid.length = 16
                · rw [if_pos hg] at h
                  have ha : a = ⟨seq, stamp, gid⟩ := by
                    injection h with hfields
                    exact hfields.symm
                  subst ha
                  refine ⟨ts6, ?_, hg⟩
                  rw [readTag_some.mp h1, deserialize_int64_some.mp h2,
                    readTag_some.mp h3, deserialize_int64_some.mp h4,
                    readTag_some.mp h5, deserialize_slice_some.mp h6]
                · rw [if_neg hg] at h
                  simp at h
  · intro h
    simp [AttachmentData.fromZBytes, readTag_none h]
  · intro r1 hts h
    subst hts
    simp [AttachmentData.fromZBytes, readTag, ze_deserializer_deserialize_string,
      deserialize_int64_none h]
  · intro n r2 hts h
    subst hts
    have e1 : readTag "sequence_number"
        (ZToken.str "sequence_number" :: ZToken.int64 n :: r2)
        = some (ZToken.int64 n :: r2) := readTag_some.mpr rfl
    have e2 : ze_deserializer_deserialize_int64 (ZToken.int64 n :: r2)
        = some (n, r2) := deserialize_int64_some.mpr rfl
    simp [AttachmentData.fromZBytes, e1, e2, readTag_none h]
  · intro n r3 hts h
    subst hts
    have e1 : readTag "sequence_number" (ZToken.str "sequence_number" ::
        ZToken.int64 n :: ZToken.str "source_timestamp" :: r3)
        = some (ZToken.int64 n :: ZToken.str "source_timestamp" :: r3) :=
      readTag_some.mpr rfl
    have e2 : ze_deserializer_deserialize_int64
        (ZToken.int64 n :: ZToken.str "source_timestamp" :: r3)
        = some (n, ZToken.str "source_timestamp" :: r3) := deserialize_int64_some.mpr rfl
    have e3 : readTag "source_timestamp" (ZToken.str "source_timestamp" :: r3)
        = some r3 := readTag_some.mpr rfl
    simp [AttachmentData.fromZBytes, e1, e2, e3, deserialize_int64_none h]
  · intro n m r4 hts h
    subst hts
    have e1 : readTag "sequence_number" (ZToken.str "sequence_number" ::
        ZToken.int64 n :: ZToken.str "source_timestamp" :: ZToken.int64 m :: r4)
        = some (ZToken.int64 n :: ZToken.str "source_timestamp" :: ZToken.int64 m :: r4) :=
      readTag_some.mpr rfl
    have e2 : ze_deserializer_deserialize_int64
        (ZToken.int64 n :: ZToken.str "source_timestamp" :: ZToken.int64 m :: r4)
        = some (n, ZToken.str "source_timestamp" :: ZToken.int64 m :: r4) :=
      deserialize_int64_some.mpr rfl
    have e3 : readTag "source_timestamp" (ZToken.str "source_timestamp" ::
        ZToken.int64 m :: r4) = some (ZToken.int64 m :: r4) := readTag_some.mpr rfl
    have e4 : ze_deserializer_deserialize_int64 (ZToken.int64 m :: r4)
        = some (m, r4) := deserialize_int64_some.mpr rfl
    simp [AttachmentData.fromZBytes, e1, e2, e3, e4, readTag_none h]
  · intro n m r5 hts h
    subst hts
    simp [AttachmentData.fromZBytes, readTag, ze_deserializer_deserialize_string,
      ze_deserializer_deserialize_int64, deserialize_slice_none h]
  · intro n m g r6 hts h
    subst hts
    simp [AttachmentData.fromZBytes, readTag, ze_deserializer_deserialize_string,
      ze_deserializer_deserialize_int64, ze_deserializer_deserialize_slice, h]

/-- Witness for c4_attachment_decode_strict: a stream whose first item
is not the "sequence_number" tag is rejected with the first distinct
error, and a full stream with a 1-byte gid is rejected with the
length-mismatch error. -/
theorem c4_attachment_decode_strict_witness :
    AttachmentData.fromZBytes [ZToken.int64 3]
      = Except.error AttachmentDecodeError.sequenceNumberTagNotFound
    ∧ AttachmentData.fromZBytes
        [ZToken.str "sequence_number", ZToken.int64 1, ZToken.str "source_timestamp",
          ZToken.int64 2, ZToken.str "source_gid", ZToken.slice [0]]
      = Except.error AttachmentDecodeError.sourceGidLengthMismatch := by
  constructor
  · exact (c4_attachment_decode_strict [ZToken.int64 3]).2.1 (by decide)
  · exact (c4_attachment_decode_strict
      [ZToken.str "sequence_number", ZToken.int64 1, ZToken.str "source_timestamp",
        ZToken.int64 2, ZToken.str "source_gid", ZToken.slice [0]]).2.2.2.2.2.2.2
      1 2 [0] [] rfl (by decide)

/-- Claim C5: for every int64 sequence number, int64 source timestamp
and 16-byte gid, decoding the stream produced by
AttachmentData::serialize_to_zbytes succeeds and returns exactly the
same three fields. -/
theorem c5_attachment_round_trip (seq stamp : Int) (gid : List Nat)
    (hseq : int64Min ≤ seq ∧ seq ≤ int64Max)
    (hstamp : int64Min ≤ stamp ∧ stamp ≤ int64Max)
    (hgid : gid.length = 16) (hbytes : ∀ b ∈ gid, b < 256) :
    AttachmentData.fromZBytes
        (AttachmentData.serialize_to_zbytes
          { sequence_number := seq, source_timestamp := stamp, source_gid := gid })
      = Except.ok { sequence_number := seq, source_timestamp := stamp, source_gid := gid } := by
  simp [AttachmentData.serialize_to_zbytes, AttachmentData.fromZBytes, readTag,
    ze_deserializer_deserialize_string, ze_deserializer_deserialize_int64,
    ze_deserializer_deserialize_slice, hgid]

/-- Witness for c5_attachment_round_trip at a concrete triple. -/
theorem c5_attachment_round_trip_witness :
    AttachmentData.fromZBytes
        (AttachmentData.serialize_to_zbytes ⟨5, 7, List.replicate 16 0⟩)
      = Except.ok (AttachmentData.mk 5 7 (List.replicate 16 0)) :=
  c5_attachment_round_trip 5 7 (List.replicate 16 0)
    (by decide) (by decide) (by decide) (by decide)

end RmwZenohCpp
